import Mathlib

/-!
Verification of the micro-si-intake core: the zod `IntakeSchema` validator and
the `buildNormalizedIntake` normalizer from `src/app/page.tsx`, and the
`pickFirst` summary helper from `src/app/blueprint/[id]/page.tsx`, shallowly
embedded in Lean 4.

String transforms (`trim`, `split(",")`) are modelled by structural recursion
over the character list so that the kernel can evaluate them on concrete
inputs; they implement the same ASCII-whitespace trimming and single-character
comma splitting that the JavaScript code performs on the inputs at issue.
-/

/-- Enum `CRM_ENUM = z.enum(["hubspot", "salesforce", "other"])`. -/
inductive Crm
  | hubspot | salesforce | other
deriving DecidableEq, Repr

/-- Enum `CONTACT_CENTER_ENUM = z.enum(["ringcentral", "five9", "genesys", "nice", "other"])`. -/
inductive ContactCenter
  | ringcentral | five9 | genesys | nice | other
deriving DecidableEq, Repr

/-- Enum `AGENT_WORKSPACE_ENUM`. -/
inductive AgentWorkspace
  | native_ccp_desktop | embedded_crm_panel | custom_workspace | hybrid_workspace | unknown
deriving DecidableEq, Repr

/-- Enum `z.enum(["sandbox", "demo"])` for `environment`. -/
inductive Environment
  | sandbox | demo
deriving DecidableEq, Repr

/-- Enum `z.enum(["inbound", "outbound", "both"])` for `direction`. -/
inductive Direction
  | inbound | outbound | both
deriving DecidableEq, Repr

/-- Enum `CRM_ACTIVITY_ENUM = z.enum(["engagement", "task", "note"])`. -/
inductive CrmActivityType
  | engagement | task | note
deriving DecidableEq, Repr

/-- Enum element of `associations`: `z.enum(["contact", "company", "deal"])`. -/
inductive Association
  | contact | company | deal
deriving DecidableEq, Repr

/-- Enum element of `matchingStrategy`: `z.enum(["ani_phone_match", "external_id"])`. -/
inductive MatchStrategy
  | ani_phone_match | external_id
deriving DecidableEq, Repr

/-- Enum `PHONE_NORM_ENUM = z.enum(["us_e164", "as_is", "other"])`. -/
inductive PhoneNorm
  | us_e164 | as_is | other
deriving DecidableEq, Repr

/-- Enum `CONTEXT_PLACEMENT_ENUM = z.enum(["interaction_tab", "sidebar", "unknown"])`. -/
inductive ContextPlacement
  | interaction_tab | sidebar | unknown
deriving DecidableEq, Repr

/-- Enum `OWNER_STRATEGY_ENUM = z.enum(["map_agent_email", "fixed_owner", "unassigned"])`. -/
inductive OwnerStrategy
  | map_agent_email | fixed_owner | unassigned
deriving DecidableEq, Repr

/-- Enum `VOLUME_ENUM = z.enum(["lt_100", "100_1000", "1000_10000", "gt_10000"])`
(the two numeric-range values get a `v` in front because a Lean name cannot
start with a digit). -/
inductive Volume
  | lt_100 | v100_1000 | v1000_10000 | gt_10000
deriving DecidableEq, Repr

/-- Enum `LATENCY_ENUM = z.enum(["best_effort", "under_2s", "under_500ms"])`. -/
inductive Latency
  | best_effort | under_2s | under_500ms
deriving DecidableEq, Repr

/-- Enum `SENSITIVITY_ENUM = z.enum(["low", "pii", "regulated"])`. -/
inductive Sensitivity
  | low | pii | regulated
deriving DecidableEq, Repr

/-- Enum `LOGGING_ENUM = z.enum(["mask_pii", "no_payload_logging"])`. -/
inductive Logging
  | mask_pii | no_payload_logging
deriving DecidableEq, Repr

/-- The string the `contactCenter` enum value serializes to (the zod enum is an
enum of these strings; the normalizer interpolates the value itself into the
event name). -/
def contactCenterStr : ContactCenter → String
  | ContactCenter.ringcentral => "ringcentral"
  | ContactCenter.five9 => "five9"
  | ContactCenter.genesys => "genesys"
  | ContactCenter.nice => "nice"
  | ContactCenter.other => "other"

/-- JavaScript ASCII whitespace test used by `String.prototype.trim` on the
characters occurring in this code base. -/
def isWsChar (c : Char) : Bool :=
  c = ' ' || c = '\t' || c = '\n' || c = '\r'

/-- Drop leading and trailing whitespace of a character list. -/
def trimChars (cs : List Char) : List Char :=
  ((cs.dropWhile isWsChar).reverse.dropWhile isWsChar).reverse

/-- Model of JavaScript `s.trim()` (the transform applied by `z.string().trim()`). -/
def jsTrim (s : String) : String :=
  String.mk (trimChars s.toList)

/-- Model of JavaScript `s.split(",")` on the character list: `""` splits to
`[""]`, adjacent commas produce empty segments. -/
def splitOnComma : List Char → List (List Char)
  | [] => [[]]
  | c :: rest =>
    if c = ',' then [] :: splitOnComma rest
    else
      match splitOnComma rest with
      | [] => [[c]]
      | g :: gs => (c :: g) :: gs

/-- Lines 138-141 of `src/app/page.tsx`:
`s.split(",").map((s) => s.trim()).filter(Boolean)`. -/
def splitCustomFields (s : String) : List String :=
  (((splitOnComma s.toList).map (fun cs => String.mk (trimChars cs))).filter
    (fun t => t ≠ ""))

/-- The raw candidate input handed to `IntakeSchema.safeParse`.  Enum, boolean
and enum-array fields carry their typed values (the claims under study never
exercise out-of-range enum encodings); every `z.string()` field is an
`Option String` so that a missing field is representable (`none`), which the
base parse of the schema checks for the required strings. -/
structure RawIntake where
  mode : Option String
  crm : Crm
  otherCrmName : Option String
  contactCenter : ContactCenter
  otherContactCenterName : Option String
  agentWorkspace : AgentWorkspace
  environment : Environment
  direction : Direction
  voiceOnly : Bool
  crmActivityObjectType : CrmActivityType
  subjectTemplate : Option String
  associations : List Association
  matchingStrategy : List MatchStrategy
  phoneNormalization : PhoneNorm
  externalIdField : Option String
  contextFields : List String
  customContextFields : Option String
  contextPlacement : ContextPlacement
  ownerStrategy : OwnerStrategy
  fixedOwner : Option String
  storeCallId : Bool
  callIdField : Option String
  expectedVolume : Volume
  idempotencyKey : Option String
  latencyTarget : Latency
  dataSensitivity : Sensitivity
  logging : Logging
deriving DecidableEq, Repr

/-- The parsed form value `IntakeForm = z.infer<typeof IntakeSchema>`: every
required string is present, and every `.trim()`ed field carries its trimmed
value. -/
structure IntakeForm where
  mode : String
  crm : Crm
  otherCrmName : Option String
  contactCenter : ContactCenter
  otherContactCenterName : Option String
  agentWorkspace : AgentWorkspace
  environment : Environment
  direction : Direction
  voiceOnly : Bool
  crmActivityObjectType : CrmActivityType
  subjectTemplate : String
  associations : List Association
  matchingStrategy : List MatchStrategy
  phoneNormalization : PhoneNorm
  externalIdField : Option String
  contextFields : List String
  customContextFields : Option String
  contextPlacement : ContextPlacement
  ownerStrategy : OwnerStrategy
  fixedOwner : Option String
  storeCallId : Bool
  callIdField : String
  expectedVolume : Volume
  idempotencyKey : String
  latencyTarget : Latency
  dataSensitivity : Sensitivity
  logging : Logging
deriving DecidableEq, Repr

/-- A zod issue restricted to what the schema produces: the offending field's
path and the message. -/
abbrev FieldError := String × String

/-- Message of `subjectTemplate: z.string().min(5, "Subject template is required")`. -/
def subjectTemplateMsg : String := "Subject template is required"

/-- Message of the regulated-logging `superRefine` rule. -/
def regulatedLoggingMsg : String :=
  "For regulated data, use 'No payload logging' (recommended)."

/-- Base-shape issues of `IntakeSchema` (presence, literal and length/min
checks), in the schema's key order, restricted to the fields whose base rules
the raw model can violate.  A missing required string yields zod's `Required`
issue keyed to that field. -/
def baseErrors (r : RawIntake) : List FieldError :=
  (if r.mode ≠ some "feedback_only" then
    [("mode", "Invalid literal value, expected \"feedback_only\"")] else [])
  ++ (if r.subjectTemplate = none then [("subjectTemplate", "Required")] else [])
  ++ (if r.subjectTemplate ≠ none ∧ (r.subjectTemplate.getD "").length < 5 then
    [("subjectTemplate", subjectTemplateMsg)] else [])
  ++ (if r.associations = [] then [("associations", "Select at least one association")] else [])
  ++ (if r.matchingStrategy = [] then
    [("matchingStrategy", "Array must contain at least 1 element(s)")] else [])
  ++ (if r.contextFields = [] then [("contextFields", "Select at least one context field")] else [])
  ++ (if r.callIdField = none then [("callIdField", "Required")] else [])
  ++ (if r.idempotencyKey = none then [("idempotencyKey", "Required")] else [])

/-- The value produced by a successful base parse: trims applied to every
`.trim()` field.  (Only consulted when `baseErrors` is empty, so the `getD`
defaults for the required strings never fire.) -/
def parsedForm (r : RawIntake) : IntakeForm where
  mode := "feedback_only"
  crm := r.crm
  otherCrmName := r.otherCrmName.map jsTrim
  contactCenter := r.contactCenter
  otherContactCenterName := r.otherContactCenterName.map jsTrim
  agentWorkspace := r.agentWorkspace
  environment := r.environment
  direction := r.direction
  voiceOnly := r.voiceOnly
  crmActivityObjectType := r.crmActivityObjectType
  subjectTemplate := r.subjectTemplate.getD ""
  associations := r.associations
  matchingStrategy := r.matchingStrategy
  phoneNormalization := r.phoneNormalization
  externalIdField := r.externalIdField.map jsTrim
  contextFields := r.contextFields
  customContextFields := r.customContextFields.map jsTrim
  contextPlacement := r.contextPlacement
  ownerStrategy := r.ownerStrategy
  fixedOwner := r.fixedOwner.map jsTrim
  storeCallId := r.storeCallId
  callIdField := jsTrim (r.callIdField.getD "")
  expectedVolume := r.expectedVolume
  idempotencyKey := jsTrim (r.idempotencyKey.getD "")
  latencyTarget := r.latencyTarget
  dataSensitivity := r.dataSensitivity
  logging := r.logging

/-- JavaScript falsiness of an optional (already trimmed) string value, as used
by the `!val.field` tests in `superRefine`: `undefined` and `""` are falsy. -/
def isBlank : Option String → Bool
  | none => true
  | some s => s = ""

/-- The five `superRefine` cross-field issues of `IntakeSchema`
(lines 74-119 of `src/app/page.tsx`), each checked independently, in source
order. -/
def refineErrors (f : IntakeForm) : List FieldError :=
  (if f.crm = Crm.other ∧ isBlank f.otherCrmName then
    [("otherCrmName", "Please specify the CRM name")] else [])
  ++ (if f.contactCenter = ContactCenter.other ∧ isBlank f.otherContactCenterName then
    [("otherContactCenterName", "Please specify the contact center name")] else [])
  ++ (if MatchStrategy.external_id ∈ f.matchingStrategy ∧ isBlank f.externalIdField then
    [("externalIdField", "External ID field is required when using external ID matching")] else [])
  ++ (if f.ownerStrategy = OwnerStrategy.fixed_owner ∧ isBlank f.fixedOwner then
    [("fixedOwner", "Fixed owner is required when using fixed owner strategy")] else [])
  ++ (if f.dataSensitivity = Sensitivity.regulated ∧ f.logging ≠ Logging.no_payload_logging then
    [("logging", regulatedLoggingMsg)] else [])

/-- `IntakeSchema.safeParse`: invalid input is a normal `Except.error` result
(never a throw).  zod runs `superRefine` only when the base shape parse
succeeds, and a failed base parse reports the base issues alone. -/
def validate (r : RawIntake) : Except (List FieldError) IntakeForm :=
  if baseErrors r ≠ [] then Except.error (baseErrors r)
  else if refineErrors (parsedForm r) ≠ [] then Except.error (refineErrors (parsedForm r))
  else Except.ok (parsedForm r)

/-- JavaScript template-literal rendering of a possibly-absent string:
interpolating `undefined` prints `"undefined"`. -/
def jsTemplateOpt : Option String → String
  | none => "undefined"
  | some s => s

/-- Warning pushed when the environment is neither sandbox nor demo. -/
def environmentWarning : String := "Evaluation-only: environment must be sandbox/demo."

/-- Warning pushed when the agent workspace is unknown. -/
def workspaceWarning : String :=
  "Agent workspace not determined — context injection placement may vary by platform."

/-- Warning pushed when data sensitivity is regulated. -/
def regulatedWarning : String :=
  "Regulated data indicated — security review required before production use."

/-- The `systems` group of the canonical blueprint. -/
structure SystemsGroup where
  crm : Crm
  otherCrmName : Option String
  contactCenter : ContactCenter
  otherContactCenterName : Option String
  agentWorkspace : AgentWorkspace
  environment : Environment
deriving DecidableEq, Repr

/-- The `trigger` group of the canonical blueprint. -/
structure TriggerGroup where
  event : String
  interactionType : String
  direction : Direction
deriving DecidableEq, Repr

/-- The `crmActivity` group of the canonical blueprint. -/
structure CrmActivityGroup where
  objectType : CrmActivityType
  subjectTemplate : String
  associations : List Association
deriving DecidableEq, Repr

/-- The `matching` group of the canonical blueprint. -/
structure MatchingGroup where
  strategy : List MatchStrategy
  phoneNormalization : PhoneNorm
  externalIdField : Option String
deriving DecidableEq, Repr

/-- The `contextInjection` group of the canonical blueprint. -/
structure ContextInjectionGroup where
  fields : List String
  customFields : List String
  placement : ContextPlacement
deriving DecidableEq, Repr

/-- The `ownership` group of the canonical blueprint. -/
structure OwnershipGroup where
  ownerStrategy : OwnerStrategy
  fixedOwner : Option String
  storeInteractionId : Bool
  interactionIdField : Option String
deriving DecidableEq, Repr

/-- The `reliability` group of the canonical blueprint. -/
structure ReliabilityGroup where
  expectedVolume : Volume
  idempotencyKey : String
  latencyTarget : Latency
deriving DecidableEq, Repr

/-- The `security` group of the canonical blueprint. -/
structure SecurityGroup where
  dataSensitivity : Sensitivity
  logging : Logging
deriving DecidableEq, Repr

/-- The canonical blueprint document returned by `buildNormalizedIntake`. -/
structure Normalized where
  version : String
  mode : String
  systems : SystemsGroup
  trigger : TriggerGroup
  crmActivity : CrmActivityGroup
  matching : MatchingGroup
  contextInjection : ContextInjectionGroup
  ownership : OwnershipGroup
  reliability : ReliabilityGroup
  security : SecurityGroup
  warnings : List String
deriving DecidableEq, Repr

/-- `buildNormalizedIntake` (lines 137-210 of `src/app/page.tsx`): the pure
normalizer.  `?? null` on an `Option String` is the identity, so the
conditionally nulled fields keep the option value on the true branch and are
`none` on the false branch.  The three warning pushes at the end are modelled
as the append of three independently evaluated singleton lists, in source
order. -/
def buildNormalizedIntake (input : IntakeForm) : Normalized :=
  let customFields := splitCustomFields (input.customContextFields.getD "")
  let contactCenterName :=
    if input.contactCenter = ContactCenter.other then jsTemplateOpt input.otherContactCenterName
    else contactCenterStr input.contactCenter
  let interactionType := if input.voiceOnly then "voice" else "generic"
  let eventType := contactCenterName ++ ".interaction.accepted"
  { version := "v1"
    mode := input.mode
    systems :=
      { crm := input.crm
        otherCrmName := if input.crm = Crm.other then input.otherCrmName else none
        contactCenter := input.contactCenter
        otherContactCenterName :=
          if input.contactCenter = ContactCenter.other then input.otherContactCenterName else none
        agentWorkspace := input.agentWorkspace
        environment := input.environment }
    trigger :=
      { event := eventType
        interactionType := interactionType
        direction := input.direction }
    crmActivity :=
      { objectType := input.crmActivityObjectType
        subjectTemplate := input.subjectTemplate
        associations := input.associations }
    matching :=
      { strategy := input.matchingStrategy
        phoneNormalization := input.phoneNormalization
        externalIdField :=
          if MatchStrategy.external_id ∈ input.matchingStrategy then input.externalIdField
          else none }
    contextInjection :=
      { fields := input.contextFields
        customFields := customFields
        placement := input.contextPlacement }
    ownership :=
      { ownerStrategy := input.ownerStrategy
        fixedOwner := if input.ownerStrategy = OwnerStrategy.fixed_owner then input.fixedOwner else none
        storeInteractionId := input.storeCallId
        interactionIdField := if input.storeCallId then some input.callIdField else none }
    reliability :=
      { expectedVolume := input.expectedVolume
        idempotencyKey := input.idempotencyKey
        latencyTarget := input.latencyTarget }
    security :=
      { dataSensitivity := input.dataSensitivity
        logging := input.logging }
    warnings :=
      (if input.environment ≠ Environment.sandbox ∧ input.environment ≠ Environment.demo then
        [environmentWarning] else [])
      ++ (if input.agentWorkspace = AgentWorkspace.unknown then [workspaceWarning] else [])
      ++ (if input.dataSensitivity = Sensitivity.regulated then [regulatedWarning] else []) }

/-- `pickFirst` from `src/app/blueprint/[id]/page.tsx` (lines 14-19): return
the first argument that is defined, non-null and not `""`, else `undefined`.
The value type is instantiated at `String`; `null` and `undefined` both map to
`none`. -/
def pickFirst : List (Option String) → Option String
  | [] => none
  | none :: rest => pickFirst rest
  | some s :: rest => if s = "" then pickFirst rest else some s

/-- A candidate qualifies for `pickFirst` when it is defined, non-null and
non-empty. -/
def pickQualifies : Option String → Bool
  | none => false
  | some s => s ≠ ""

/-- Characterization of a successful `safeParse`: the base shape accepts, every
`superRefine` rule accepts the parsed value, and the result is that parsed
value. -/
theorem validate_ok_iff (r : RawIntake) (f : IntakeForm) :
    validate r = Except.ok f ↔
      baseErrors r = [] ∧ refineErrors (parsedForm r) = [] ∧ f = parsedForm r := by
  unfold validate
  split_ifs with h1 h2 <;> simp_all [eq_comm]

/-- The `superRefine` pass accepts exactly when each of its five cross-field
conditions is false. -/
theorem refineErrors_nil_iff (f : IntakeForm) :
    refineErrors f = [] ↔
      ¬(f.crm = Crm.other ∧ isBlank f.otherCrmName)
      ∧ ¬(f.contactCenter = ContactCenter.other ∧ isBlank f.otherContactCenterName)
      ∧ ¬(MatchStrategy.external_id ∈ f.matchingStrategy ∧ isBlank f.externalIdField)
      ∧ ¬(f.ownerStrategy = OwnerStrategy.fixed_owner ∧ isBlank f.fixedOwner)
      ∧ ¬(f.dataSensitivity = Sensitivity.regulated ∧ f.logging ≠ Logging.no_payload_logging) := by
  unfold refineErrors
  split_ifs with h1 h2 h3 h4 h5 <;> simp_all

/-- A fully valid raw intake mirroring the form's default values. -/
def exampleRaw : RawIntake where
  mode := some "feedback_only"
  crm := Crm.hubspot
  otherCrmName := none
  contactCenter := ContactCenter.ringcentral
  otherContactCenterName := none
  agentWorkspace := AgentWorkspace.native_ccp_desktop
  environment := Environment.sandbox
  direction := Direction.inbound
  voiceOnly := true
  crmActivityObjectType := CrmActivityType.engagement
  subjectTemplate := some "Interaction from ani to dnis"
  associations := [Association.contact]
  matchingStrategy := [MatchStrategy.ani_phone_match]
  phoneNormalization := PhoneNorm.us_e164
  externalIdField := none
  contextFields := ["contact.fullName"]
  customContextFields := none
  contextPlacement := ContextPlacement.interaction_tab
  ownerStrategy := OwnerStrategy.map_agent_email
  fixedOwner := none
  storeCallId := true
  callIdField := some "interaction_id"
  expectedVolume := Volume.v100_1000
  idempotencyKey := some "interactionId"
  latencyTarget := Latency.under_2s
  dataSensitivity := Sensitivity.pii
  logging := Logging.mask_pii

/-- Valid raw intake with unassigned owner strategy, a stray `fixedOwner`
value, no external-id matching and `storeCallId` off. -/
def rawUnassigned : RawIntake :=
  { exampleRaw with
      ownerStrategy := OwnerStrategy.unassigned
      fixedOwner := some "stray"
      storeCallId := false }

/-- Valid regulated intake that keeps `mask_pii` logging. -/
def rawRegulatedMask : RawIntake :=
  { exampleRaw with dataSensitivity := Sensitivity.regulated }

/-- The same regulated intake with `no_payload_logging`. -/
def rawRegulatedStrict : RawIntake :=
  { rawRegulatedMask with logging := Logging.no_payload_logging }

/-- Raw intake whose subject template has 4 characters. -/
def rawShortSubject : RawIntake :=
  { exampleRaw with subjectTemplate := some "abcd" }

/-- Raw intake lacking `callIdField`, with `storeCallId` off. -/
def rawNoCallId : RawIntake :=
  { exampleRaw with callIdField := none, storeCallId := false }

/-- Raw intake with empty-string `callIdField` and `idempotencyKey`. -/
def rawEmptyStrings : RawIntake :=
  { exampleRaw with callIdField := some "", idempotencyKey := some "" }

/-- Form value whose custom-context-fields text is the spec's example. -/
def formCustomExample : IntakeForm :=
  { parsedForm exampleRaw with customContextFields := some " a, ,b ," }

/-- C1: for every validated RawIntake, the normalizer nulls conditional fields
whose enabling condition is false: `systems.otherCrmName` is `none` unless
`crm = other`; `ownership.fixedOwner` is `none` unless the owner strategy is
`fixed_owner` (in particular for `unassigned`, regardless of a stray raw
value); `matching.externalIdField` is `none` unless `external_id` is in the
matching strategy, and equals the supplied value when it is;
`ownership.interactionIdField` is `none` unless `storeCallId` is true. -/
theorem C1_conditional_nulling (r : RawIntake) (f : IntakeForm)
    (_hv : validate r = Except.ok f) :
    (f.crm ≠ Crm.other → (buildNormalizedIntake f).systems.otherCrmName = none)
    ∧ (f.ownerStrategy ≠ OwnerStrategy.fixed_owner →
        (buildNormalizedIntake f).ownership.fixedOwner = none)
    ∧ (f.ownerStrategy = OwnerStrategy.unassigned →
        (buildNormalizedIntake f).ownership.fixedOwner = none)
    ∧ (MatchStrategy.external_id ∉ f.matchingStrategy →
        (buildNormalizedIntake f).matching.externalIdField = none)
    ∧ (MatchStrategy.external_id ∈ f.matchingStrategy →
        (buildNormalizedIntake f).matching.externalIdField = f.externalIdField)
    ∧ (f.storeCallId = false → (buildNormalizedIntake f).ownership.interactionIdField = none)
    ∧ (f.storeCallId = true →
        (buildNormalizedIntake f).ownership.interactionIdField = some f.callIdField) := by
  refine ⟨?_, ?_, ?_, ?_, ?_, ?_, ?_⟩ <;> intro h <;> simp [buildNormalizedIntake, h]

/-- Closed instance of C1: a validated intake with unassigned owner strategy, a
stray raw `fixedOwner`, no external-id matching, and `storeCallId` off. -/
theorem C1_conditional_nulling_witness :
    (buildNormalizedIntake (parsedForm rawUnassigned)).systems.otherCrmName = none
    ∧ (buildNormalizedIntake (parsedForm rawUnassigned)).ownership.fixedOwner = none
    ∧ (buildNormalizedIntake (parsedForm rawUnassigned)).matching.externalIdField = none
    ∧ (buildNormalizedIntake (parsedForm rawUnassigned)).ownership.interactionIdField = none := by
  obtain ⟨h1, h2, _, h4, _, h6, _⟩ :=
    C1_conditional_nulling rawUnassigned (parsedForm rawUnassigned) rfl
  exact ⟨h1 (by decide), h2 (by decide), h4 (by decide), h6 rfl⟩

/-- C2: for every validated RawIntake, `trigger.event` is
`{contactCenterNameOrOther}.interaction.accepted`, where the name is the
contact-center enum value unless it is `other`, in which case it is the
(non-empty) companion free-text name; and `trigger.interactionType` is
`"voice"` when `voiceOnly` is true, else `"generic"`. -/
theorem C2_trigger_derivation (r : RawIntake) (f : IntakeForm)
    (hv : validate r = Except.ok f) :
    (f.contactCenter ≠ ContactCenter.other →
      (buildNormalizedIntake f).trigger.event
        = contactCenterStr f.contactCenter ++ ".interaction.accepted")
    ∧ (f.contactCenter = ContactCenter.other →
      ∃ nm, f.otherContactCenterName = some nm ∧ nm ≠ ""
        ∧ (buildNormalizedIntake f).trigger.event = nm ++ ".interaction.accepted")
    ∧ (buildNormalizedIntake f).trigger.interactionType
        = (if f.voiceOnly then "voice" else "generic") := by
  obtain ⟨hb, hr, hf⟩ := (validate_ok_iff r f).mp hv
  refine ⟨?_, ?_, ?_⟩
  · intro h
    simp [buildNormalizedIntake, h]
  · intro h
    have hcond := ((refineErrors_nil_iff (parsedForm r)).mp hr).2.1
    rw [← hf] at hcond
    cases ho : f.otherContactCenterName with
    | none => exact absurd ⟨h, by simp [isBlank, ho]⟩ hcond
    | some nm =>
      refine ⟨nm, rfl, ?_, ?_⟩
      · intro hnm
        exact absurd ⟨h, by simp [isBlank, ho, hnm]⟩ hcond
      · simp [buildNormalizedIntake, h, ho, jsTemplateOpt]
  · simp [buildNormalizedIntake]

/-- Closed instance of C2: the default intake (ringcentral, voice-only) yields
the ringcentral accepted-interaction event and the voice interaction type. -/
theorem C2_trigger_derivation_witness :
    (buildNormalizedIntake (parsedForm exampleRaw)).trigger.event
      = "ringcentral.interaction.accepted"
    ∧ (buildNormalizedIntake (parsedForm exampleRaw)).trigger.interactionType = "voice" := by
  obtain ⟨h1, _, h3⟩ := C2_trigger_derivation exampleRaw (parsedForm exampleRaw) rfl
  exact ⟨(h1 (by decide)).trans (by decide), h3.trans (by decide)⟩

/-- C3: the normalizer is deterministic — it is a pure function of the
validated intake (the embedding has no state, clock or randomness), so equal
inputs give equal canonical documents, and calling it twice on one input
yields identical documents. -/
theorem C3_normalizer_deterministic (f g : IntakeForm) (h : f = g) :
    buildNormalizedIntake f = buildNormalizedIntake g := by
  rw [h]

/-- Closed instance of C3: two calls on the parsed default intake agree. -/
theorem C3_normalizer_deterministic_witness :
    buildNormalizedIntake (parsedForm exampleRaw)
      = buildNormalizedIntake (parsedForm exampleRaw) :=
  C3_normalizer_deterministic (parsedForm exampleRaw) (parsedForm exampleRaw) rfl

/-- C4: the normalizer's custom context fields are the comma-split, per-segment
trimmed, empty-discarded segments of the input string, in order; the spec's
example `" a, ,b ,"` yields `["a", "b"]`, and an absent or empty input yields
`[]`; no empty segment ever survives. -/
theorem C4_custom_fields_split (f : IntakeForm) :
    ((buildNormalizedIntake f).contextInjection.customFields
      = splitCustomFields (f.customContextFields.getD ""))
    ∧ (∀ t ∈ (buildNormalizedIntake f).contextInjection.customFields, t ≠ "")
    ∧ (f.customContextFields = some " a, ,b ," →
        (buildNormalizedIntake f).contextInjection.customFields = ["a", "b"])
    ∧ (f.customContextFields = none →
        (buildNormalizedIntake f).contextInjection.customFields = [])
    ∧ (f.customContextFields = some "" →
        (buildNormalizedIntake f).contextInjection.customFields = []) := by
  refine ⟨rfl, ?_, ?_, ?_, ?_⟩
  · intro t ht
    have : (buildNormalizedIntake f).contextInjection.customFields
        = splitCustomFields (f.customContextFields.getD "") := rfl
    rw [this, splitCustomFields] at ht
    exact of_decide_eq_true (List.mem_filter.mp ht).2
  · intro h
    have : (buildNormalizedIntake f).contextInjection.customFields
        = splitCustomFields (f.customContextFields.getD "") := rfl
    rw [this, h]
    decide
  · intro h
    have : (buildNormalizedIntake f).contextInjection.customFields
        = splitCustomFields (f.customContextFields.getD "") := rfl
    rw [this, h]
    decide
  · intro h
    have : (buildNormalizedIntake f).contextInjection.customFields
        = splitCustomFields (f.customContextFields.getD "") := rfl
    rw [this, h]
    decide

/-- Closed instance of C4: the spec's example input produces `["a", "b"]`. -/
theorem C4_custom_fields_split_witness :
    (buildNormalizedIntake formCustomExample).contextInjection.customFields = ["a", "b"] :=
  (C4_custom_fields_split formCustomExample).2.2.1 rfl

/-- C5: a raw intake with regulated data sensitivity and `mask_pii` logging
that passes the base shape checks fails validation with a blocking error keyed
to `logging`; with `no_payload_logging` (and no other cross-field violation)
it passes, and the normalized output's warnings contain the regulated-data
security-review message. -/
theorem C5_regulated_logging_rule (r : RawIntake) :
    (r.dataSensitivity = Sensitivity.regulated → r.logging = Logging.mask_pii →
      baseErrors r = [] →
      validate r = Except.error (refineErrors (parsedForm r))
        ∧ ("logging", regulatedLoggingMsg) ∈ refineErrors (parsedForm r))
    ∧ (∀ f, validate r = Except.ok f → r.dataSensitivity = Sensitivity.regulated →
        regulatedWarning ∈ (buildNormalizedIntake f).warnings)
    ∧ (r.logging = Logging.no_payload_logging → baseErrors r = [] →
        refineErrors (parsedForm r) = [] → validate r = Except.ok (parsedForm r)) := by
  refine ⟨?_, ?_, ?_⟩
  · intro hs hl hb
    have hsf : (parsedForm r).dataSensitivity = Sensitivity.regulated := by
      simp [parsedForm, hs]
    have hlf : (parsedForm r).logging = Logging.mask_pii := by
      simp [parsedForm, hl]
    have hmem : ("logging", regulatedLoggingMsg) ∈ refineErrors (parsedForm r) := by
      simp [refineErrors, hsf, hlf]
    have hne : refineErrors (parsedForm r) ≠ [] := by
      intro hnil
      rw [hnil] at hmem
      exact absurd hmem (List.not_mem_nil _)
    refine ⟨?_, hmem⟩
    unfold validate
    rw [if_neg (fun hcon => hcon hb), if_pos hne]
  · intro f hv hs
    obtain ⟨_, _, hf⟩ := (validate_ok_iff r f).mp hv
    have hsf : f.dataSensitivity = Sensitivity.regulated := by
      rw [hf]; simp [parsedForm, hs]
    simp [buildNormalizedIntake, hsf]
  · intro _ hb hr
    unfold validate
    rw [if_neg (fun hcon => hcon hb), if_neg (fun hcon => hcon hr)]

/-- Closed instance of C5: the regulated default intake with `mask_pii` fails
on `logging`; switching to `no_payload_logging` validates and yields the
regulated-data warning. -/
theorem C5_regulated_logging_rule_witness :
    ("logging", regulatedLoggingMsg) ∈ refineErrors (parsedForm rawRegulatedMask)
    ∧ validate rawRegulatedStrict = Except.ok (parsedForm rawRegulatedStrict)
    ∧ regulatedWarning ∈ (buildNormalizedIntake (parsedForm rawRegulatedStrict)).warnings := by
  have hok : validate rawRegulatedStrict = Except.ok (parsedForm rawRegulatedStrict) :=
    (C5_regulated_logging_rule rawRegulatedStrict).2.2 rfl (by decide) (by decide)
  refine ⟨((C5_regulated_logging_rule rawRegulatedMask).1 rfl rfl (by decide)).2, hok, ?_⟩
  exact (C5_regulated_logging_rule rawRegulatedStrict).2.1 (parsedForm rawRegulatedStrict) hok rfl

/-- C6: the normalizer's warnings are the fixed-order append of three
independently evaluated advisory warnings (environment, agent-workspace,
regulated); because the environment enum only admits sandbox and demo, the
environment branch contributes nothing, so the list never contains the
environment warning and has at most two entries. -/
theorem C6_warnings_structure (f : IntakeForm) :
    (buildNormalizedIntake f).warnings
      = (if f.agentWorkspace = AgentWorkspace.unknown then [workspaceWarning] else [])
        ++ (if f.dataSensitivity = Sensitivity.regulated then [regulatedWarning] else [])
    ∧ environmentWarning ∉ (buildNormalizedIntake f).warnings
    ∧ (buildNormalizedIntake f).warnings.length ≤ 2 := by
  have henv : ¬(f.environment ≠ Environment.sandbox ∧ f.environment ≠ Environment.demo) := by
    cases h : f.environment <;> simp [h]
  have hw : (buildNormalizedIntake f).warnings
      = (if f.agentWorkspace = AgentWorkspace.unknown then [workspaceWarning] else [])
        ++ (if f.dataSensitivity = Sensitivity.regulated then [regulatedWarning] else []) := by
    simp [buildNormalizedIntake, henv]
  refine ⟨hw, ?_, ?_⟩
  · rw [hw]
    split_ifs <;> decide
  · rw [hw]
    split_ifs <;> decide

/-- Closed instance of C6: a regulated intake gets exactly the regulated
warning, never the environment warning, and at most two warnings. -/
theorem C6_warnings_structure_witness :
    environmentWarning ∉ (buildNormalizedIntake (parsedForm rawRegulatedStrict)).warnings
    ∧ (buildNormalizedIntake (parsedForm rawRegulatedStrict)).warnings.length ≤ 2 :=
  ⟨(C6_warnings_structure (parsedForm rawRegulatedStrict)).2.1,
    (C6_warnings_structure (parsedForm rawRegulatedStrict)).2.2⟩


/-- Membership in a conditional singleton issue list forces the condition and
pins down the issue. -/
theorem mem_ite_nil {c : Prop} [Decidable c] {x p : FieldError}
    (h : p ∈ (if c then [x] else ([] : List FieldError))) : c ∧ p = x := by
  split_ifs at h with hc
  · exact ⟨hc, List.mem_singleton.mp h⟩
  · exact absurd h (List.not_mem_nil _)

/-- C7: a raw intake whose subject template has fewer than 5 characters is
rejected, as a normal error result, with an issue keyed to `subjectTemplate`;
a subject template of length at least 5 satisfies the rule (no issue keyed to
`subjectTemplate` is produced for it). -/
theorem C7_subject_template_min_length (r : RawIntake) (s : String)
    (hs : r.subjectTemplate = some s) :
    (s.length < 5 →
      validate r = Except.error (baseErrors r)
        ∧ ("subjectTemplate", subjectTemplateMsg) ∈ baseErrors r)
    ∧ (5 ≤ s.length → ∀ m, ("subjectTemplate", m) ∉ baseErrors r) := by
  constructor
  · intro h
    have hmem : ("subjectTemplate", subjectTemplateMsg) ∈ baseErrors r := by
      simp [baseErrors, hs, h]
    have hne : baseErrors r ≠ [] := by
      intro hnil
      rw [hnil] at hmem
      exact absurd hmem (List.not_mem_nil _)
    refine ⟨?_, hmem⟩
    unfold validate
    rw [if_pos hne]
  · intro h m hmem
    simp only [baseErrors, List.mem_append, or_assoc, hs] at hmem
    rcases hmem with h1 | h1 | h1 | h1 | h1 | h1 | h1 | h1
    · exact absurd (mem_ite_nil h1).2 (by simp)
    · exact absurd (mem_ite_nil h1).1 (by simp)
    · have hc := (mem_ite_nil h1).1
      simp at hc
      exact absurd hc (Nat.not_lt.mpr h)
    · exact absurd (mem_ite_nil h1).2 (by simp)
    · exact absurd (mem_ite_nil h1).2 (by simp)
    · exact absurd (mem_ite_nil h1).2 (by simp)
    · exact absurd (mem_ite_nil h1).2 (by simp)
    · exact absurd (mem_ite_nil h1).2 (by simp)

/-- Closed instance of C7: a 4-character subject template is rejected on
`subjectTemplate`; the default (long) template produces no such issue. -/
theorem C7_subject_template_min_length_witness :
    validate rawShortSubject = Except.error (baseErrors rawShortSubject)
    ∧ ("subjectTemplate", subjectTemplateMsg) ∈ baseErrors rawShortSubject
    ∧ (∀ m, ("subjectTemplate", m) ∉ baseErrors exampleRaw) := by
  obtain ⟨h1, _⟩ := C7_subject_template_min_length rawShortSubject "abcd" rfl
  refine ⟨(h1 (by decide)).1, (h1 (by decide)).2, ?_⟩
  exact (C7_subject_template_min_length exampleRaw "Interaction from ani to dnis" rfl).2
    (by decide)

/-- C8: `callIdField` is required independently of the `storeCallId` toggle —
any raw intake lacking it (whatever `storeCallId` is) is rejected with an
issue keyed to `callIdField`; by contrast the base parse never requires
`fixedOwner` or `externalIdField` (those are demanded only conditionally, by
`superRefine`). -/
theorem C8_callIdField_always_required (r : RawIntake) (h : r.callIdField = none) :
    (validate r = Except.error (baseErrors r)
      ∧ ("callIdField", "Required") ∈ baseErrors r)
    ∧ (∀ m, ("fixedOwner", m) ∉ baseErrors r)
    ∧ (∀ m, ("externalIdField", m) ∉ baseErrors r) := by
  refine ⟨?_, ?_, ?_⟩
  · have hmem : ("callIdField", "Required") ∈ baseErrors r := by
      simp [baseErrors, h]
    have hne : baseErrors r ≠ [] := by
      intro hnil
      rw [hnil] at hmem
      exact absurd hmem (List.not_mem_nil _)
    refine ⟨?_, hmem⟩
    unfold validate
    rw [if_pos hne]
  · intro m hmem
    simp only [baseErrors, List.mem_append, or_assoc] at hmem
    rcases hmem with h1 | h1 | h1 | h1 | h1 | h1 | h1 | h1 <;>
      exact absurd (mem_ite_nil h1).2 (by simp)
  · intro m hmem
    simp only [baseErrors, List.mem_append, or_assoc] at hmem
    rcases hmem with h1 | h1 | h1 | h1 | h1 | h1 | h1 | h1 <;>
      exact absurd (mem_ite_nil h1).2 (by simp)

/-- Closed instance of C8: an intake with no `callIdField` and `storeCallId`
off is still rejected on `callIdField`. -/
theorem C8_callIdField_always_required_witness :
    validate rawNoCallId = Except.error (baseErrors rawNoCallId)
    ∧ ("callIdField", "Required") ∈ baseErrors rawNoCallId
    ∧ rawNoCallId.storeCallId = false := by
  obtain ⟨⟨h1, h2⟩, _, _⟩ := C8_callIdField_always_required rawNoCallId rfl
  exact ⟨h1, h2, rfl⟩

/-- C9: `pickFirst` returns the first candidate that is defined, non-null and
not the empty string, and `none` when no candidate qualifies; it is a pure
function (a Lean function of its argument list alone). -/
theorem C9_pickFirst_first_qualifying (l : List (Option String)) :
    pickFirst l = (l.find? pickQualifies).join
    ∧ ((∀ v ∈ l, pickQualifies v = false) → pickFirst l = none) := by
  have h1 : pickFirst l = (l.find? pickQualifies).join := by
    induction l with
    | nil => rfl
    | cons v rest ih =>
      cases v with
      | none =>
        rw [List.find?_cons_of_neg _ (by simp [pickQualifies])]
        simpa [pickFirst] using ih
      | some s =>
        by_cases hc : s = ""
        · rw [List.find?_cons_of_neg _ (by simp [pickQualifies, hc])]
          simpa [pickFirst, hc] using ih
        · rw [List.find?_cons_of_pos _ (by simp [pickQualifies, hc])]
          simp [pickFirst, hc, Option.join]
  refine ⟨h1, fun hall => ?_⟩
  rw [h1, List.find?_eq_none.mpr (fun v hv => by simp [hall v hv])]
  rfl

/-- Closed instance of C9: the third candidate is the first qualifying one;
a list of only disqualified candidates yields `none`. -/
theorem C9_pickFirst_first_qualifying_witness :
    pickFirst [none, some "", some "crm", some "x"] = some "crm"
    ∧ pickFirst [none, some ""] = none := by
  constructor
  · exact (C9_pickFirst_first_qualifying [none, some "", some "crm", some "x"]).1.trans
      (by decide)
  · exact (C9_pickFirst_first_qualifying [none, some ""]).2 (by decide)

/-- C10: the validator accepts the empty string for `callIdField` and for
`idempotencyKey` (their rules reject only a missing value), and a validated
empty string flows into the canonical document unchanged:
`reliability.idempotencyKey` copies the field, and with `storeCallId` on,
`ownership.interactionIdField` carries the (empty) `callIdField`. -/
theorem C10_empty_string_accepted (r : RawIntake) :
    (r.callIdField = some "" → ∀ m, ("callIdField", m) ∉ baseErrors r)
    ∧ (r.idempotencyKey = some "" → ∀ m, ("idempotencyKey", m) ∉ baseErrors r)
    ∧ (∀ f, validate r = Except.ok f →
        (buildNormalizedIntake f).reliability.idempotencyKey = f.idempotencyKey
        ∧ (r.idempotencyKey = some "" → f.idempotencyKey = "")
        ∧ (r.callIdField = some "" → f.callIdField = "")
        ∧ (f.storeCallId = true →
            (buildNormalizedIntake f).ownership.interactionIdField = some f.callIdField)) := by
  refine ⟨?_, ?_, ?_⟩
  · intro hc m hmem
    simp only [baseErrors, List.mem_append, or_assoc] at hmem
    rcases hmem with h1 | h1 | h1 | h1 | h1 | h1 | h1 | h1
    · exact absurd (mem_ite_nil h1).2 (by simp)
    · exact absurd (mem_ite_nil h1).2 (by simp)
    · exact absurd (mem_ite_nil h1).2 (by simp)
    · exact absurd (mem_ite_nil h1).2 (by simp)
    · exact absurd (mem_ite_nil h1).2 (by simp)
    · exact absurd (mem_ite_nil h1).2 (by simp)
    · exact absurd (mem_ite_nil h1).1 (by simp [hc])
    · exact absurd (mem_ite_nil h1).2 (by simp)
  · intro hi m hmem
    simp only [baseErrors, List.mem_append, or_assoc] at hmem
    rcases hmem with h1 | h1 | h1 | h1 | h1 | h1 | h1 | h1
    · exact absurd (mem_ite_nil h1).2 (by simp)
    · exact absurd (mem_ite_nil h1).2 (by simp)
    · exact absurd (mem_ite_nil h1).2 (by simp)
    · exact absurd (mem_ite_nil h1).2 (by simp)
    · exact absurd (mem_ite_nil h1).2 (by simp)
    · exact absurd (mem_ite_nil h1).2 (by simp)
    · exact absurd (mem_ite_nil h1).2 (by simp)
    · exact absurd (mem_ite_nil h1).1 (by simp [hi])
  · intro f hv
    obtain ⟨_, _, hf⟩ := (validate_ok_iff r f).mp hv
    refine ⟨rfl, ?_, ?_, ?_⟩
    · intro h
      rw [hf]
      simp only [parsedForm]
      rw [h]
      decide
    · intro h
      rw [hf]
      simp only [parsedForm]
      rw [h]
      decide
    · intro h
      simp [buildNormalizedIntake, h]

/-- Closed instance of C10: empty `callIdField` and `idempotencyKey` pass
validation and reach the canonical document unchanged. -/
theorem C10_empty_string_accepted_witness :
    (∀ m, ("callIdField", m) ∉ baseErrors rawEmptyStrings)
    ∧ validate rawEmptyStrings = Except.ok (parsedForm rawEmptyStrings)
    ∧ (buildNormalizedIntake (parsedForm rawEmptyStrings)).reliability.idempotencyKey = ""
    ∧ (buildNormalizedIntake (parsedForm rawEmptyStrings)).ownership.interactionIdField
        = some "" := by
  obtain ⟨hc, _, hrest⟩ := C10_empty_string_accepted rawEmptyStrings
  have hok : validate rawEmptyStrings = Except.ok (parsedForm rawEmptyStrings) := rfl
  obtain ⟨ha, hb, hcc, hd⟩ := hrest (parsedForm rawEmptyStrings) hok
  refine ⟨hc rfl, hok, ?_, ?_⟩
  · rw [ha]
    exact hb rfl
  · rw [hd rfl, hcc rfl]
